import Mathlib

/-!
Shallow embedding of the L2TPv3 control-plane daemon (osmo-el2tpd),
source file siu/l2tp/l2tpd.c and header src/l2tpd.h.

Byte buffers (`struct msgb` payloads) are modelled as `List Nat`, each
element a byte value.  All multi-byte wire fields are big endian, as the
C code reads and writes them through ntohs/ntohl and osmo_store16be.
C unsigned arithmetic is modelled with explicit `% 2 ^ w` where wrap can
occur.  Out-of-range memory reads are modelled by `List.getD _ _ 0`; the
separate access-trace function `msgb_avp_parse_accesses` records which
byte indices the parser dereferences, so out-of-bounds accesses can be
reasoned about even where `getD` totalizes them.
-/

/-- Big-endian 16-bit load at byte index `i`, as done by `ntohs` on a
pointer into the buffer (`osmo_load16be`). -/
def load16be (msg : List Nat) (i : Nat) : Nat :=
  msg.getD i 0 * 256 + msg.getD (i + 1) 0

/-- Big-endian 32-bit load at byte index `i`, as done by `ntohl` on a
pointer into the buffer (`osmo_load32be`). -/
def load32be (msg : List Nat) (i : Nat) : Nat :=
  ((msg.getD i 0 * 256 + msg.getD (i + 1) 0) * 256 + msg.getD (i + 2) 0) * 256
    + msg.getD (i + 3) 0

/-- Big-endian byte pair of a 16-bit value (`msgb_put_u16` / `htons`). -/
def be16 (n : Nat) : List Nat :=
  [n / 256 % 256, n % 256]

/-- Big-endian byte quadruple of a 32-bit value (`msgb_put_u32` / `htonl`). -/
def be32 (n : Nat) : List Nat :=
  [n / 2 ^ 24 % 256, n / 2 ^ 16 % 256, n / 256 % 256, n % 256]

/-- Value of a C `!=` comparison used as an integer: `1` when the operands
differ, `0` when they are equal.  The C expressions
`ch->ver & T_BIT|L_BIT|S_BIT != T_BIT|L_BIT|S_BIT` (l2tpd.c line 384) and
`ntohs(ah->m_h_length) & 0x3FF != 17` (l2tpd.c line 153) apply `!=` before
`&` and `|`, so this integer value participates in the bit arithmetic. -/
def cne (a b : Nat) : Nat :=
  if a = b then 0 else 1

/-- Modelled from the spec: constant of the missing header l2tp_protocol.h.
Control header bit 15, the control-message flag T. -/
def T_BIT : Nat := 0x8000

/-- Modelled from the spec: constant of the missing header l2tp_protocol.h.
Control header bit 14, the length-present flag L. -/
def L_BIT : Nat := 0x4000

/-- Modelled from the spec: constant of the missing header l2tp_protocol.h.
Control header bit 11, the sequence-present flag S. -/
def S_BIT : Nat := 0x0800

/-- Modelled from the spec: constant of the missing header l2tp_protocol.h.
Low four bits of the version+flags word hold the protocol version. -/
def VER_MASK : Nat := 0x000F

/-- Modelled from the spec: constant of the missing header l2tp_protocol.h.
Mask of all reserved bits of the version+flags word: every bit other than
T, L, S and the version nibble must be zero. -/
def Z_BITS : Nat := 0x37F0

/-- Modelled from the spec: constant of the missing header l2tp_protocol.h.
IETF vendor id (`vendor_id` 0 means IETF). -/
def VENDOR_IETF : Nat := 0

/-- Modelled from the spec: constant of the missing header l2tp_protocol.h.
Ericsson vendor id (IANA private enterprise number). -/
def VENDOR_ERICSSON : Nat := 193

/-- Modelled from the spec: constant of the missing header l2tp_protocol.h.
IETF attribute type of the Message-Type AVP. -/
def AVP_IETF_CTRL_MSG : Nat := 0

/-- Modelled from the spec: constant of the missing header l2tp_protocol.h.
IETF attribute type of the Message-Digest AVP. -/
def AVP_IETF_MSG_DIGEST : Nat := 59

/-- Modelled from the spec: constant of the missing header l2tp_protocol.h.
Ericsson attribute type of the vendor Message-Type AVP. -/
def AVP_ERIC_CTRL_MSG : Nat := 0

/-- Modelled from the spec: constant of the missing header l2tp_protocol.h.
IETF control message type of the explicit acknowledgement (ZLB/ACK). -/
def IETF_CTRLMSG_ACK : Nat := 20

/-- Parsed representation of an L2TP AVP, `struct avp_parsed`
(l2tpd.c lines 30-37).  The `data` pointer is modelled by the byte list
it points at. -/
structure avp_parsed where
  vendor_id : Nat
  type : Nat
  data_len : Nat
  m : Bool
  h : Bool
  data : List Nat
deriving DecidableEq, Repr

/-- Error outcomes of `msgb_avp_parse`, one per `return -1` branch, named
after the log message of the branch.  In the spec's error taxonomy,
`hdrBeyondEnd` and `dataBeyondEnd` are both `Truncated` and `lenBelow6`
is `InvalidLength`. -/
inductive AvpErr where
  | hdrBeyondEnd
  | lenBelow6
  | dataBeyondEnd
deriving DecidableEq, Repr

/-- Translation of `msgb_avp_parse` (l2tpd.c lines 40-68).

`msgb_left` is the `uint32_t` difference `msgb_length(msg) - offset`,
which wraps modulo `2 ^ 32` when `offset` exceeds the buffer length.

The C line 43 reads
`struct l2tp_avp_hdr *ah = (struct l2tp_avp_hdr *) msg->data + offset;`;
the cast binds before `+`, so the pointer arithmetic is scaled by
`sizeof(struct l2tp_avp_hdr) = 6` and the header is addressed at byte
`6 * offset`, not at byte `offset`.  The model keeps that address in
`base`. -/
def msgb_avp_parse (msg : List Nat) (offset : Nat) :
    Except AvpErr (avp_parsed × Nat) :=
  let msgb_left := (2 ^ 32 + msg.length - offset % 2 ^ 32) % 2 ^ 32
  let base := 6 * offset
  if 6 > msgb_left then
    .error .hdrBeyondEnd
  else
    let m_h_length := load16be msg base
    let avp_len := m_h_length &&& 0x3ff
    if avp_len < 6 then
      .error .lenBelow6
    else if 6 + avp_len > msgb_left then
      .error .dataBeyondEnd
    else
      .ok ({ vendor_id := load16be msg (base + 2)
           , type := load16be msg (base + 4)
           , data_len := avp_len - 6
           , m := m_h_length &&& 0x8000 ≠ 0
           , h := m_h_length &&& 0x4000 ≠ 0
           , data := (msg.drop (base + 6)).take (avp_len - 6) },
           offset + avp_len)

/-- Byte indices dereferenced by `msgb_avp_parse`, following its control
flow: no byte is touched when the first length check fails; the two bytes
of `m_h_length` are read before the `avp_len` checks; `vendor_id` and
`attr_type` are read only on the success path.  The addresses start at
`6 * offset` because of the pointer-arithmetic of line 43. -/
def msgb_avp_parse_accesses (msg : List Nat) (offset : Nat) : List Nat :=
  let msgb_left := (2 ^ 32 + msg.length - offset % 2 ^ 32) % 2 ^ 32
  let base := 6 * offset
  if 6 > msgb_left then
    []
  else
    let m_h_length := load16be msg base
    let avp_len := m_h_length &&& 0x3ff
    if avp_len < 6 then
      [base, base + 1]
    else if 6 + avp_len > msgb_left then
      [base, base + 1]
    else
      [base, base + 1, base + 2, base + 3, base + 4, base + 5]

/-- Translation of `msgb_avp_put` (l2tpd.c lines 71-88): appends the
6-byte AVP header and the value to the message, or fails when the value
does not fit the 10-bit length field.  `msgb_put_u16` stores big
endian. -/
def msgb_avp_put (msg : List Nat) (vendor_id type : Nat) (data : List Nat)
    (m_flag : Bool) : Option (List Nat) :=
  if data.length > 0x3ff - 6 then
    none
  else
    some (msg ++ be16 (((data.length + 6) &&& 0x3ff) |||
                       (if m_flag then 0x8000 else 0))
              ++ be16 vendor_id ++ be16 type ++ data)

/-- Translation of `msgb_avp_put_u16` (l2tpd.c lines 98-103): the value
is stored as its big-endian byte pair. -/
def msgb_avp_put_u16 (msg : List Nat) (vendor avp_type val : Nat)
    (m_flag : Bool) : Option (List Nat) :=
  msgb_avp_put msg vendor avp_type (be16 val) m_flag

/-- Translation of `msgb_avp_put_msgt` (l2tpd.c lines 114-117). -/
def msgb_avp_put_msgt (msg : List Nat) (vendor msg_type : Nat) :
    Option (List Nat) :=
  msgb_avp_put_u16 msg vendor AVP_IETF_CTRL_MSG msg_type true

/-- Translation of `msgb_avp_put_digest` (l2tpd.c lines 124-131): a
zero-initialized 17-byte digest value, to be patched at transmit time. -/
def msgb_avp_put_digest (msg : List Nat) : Option (List Nat) :=
  msgb_avp_put msg VENDOR_IETF AVP_IETF_MSG_DIGEST (List.replicate 17 0) true

/-- Translation of `digest_avp_update` (l2tpd.c lines 140-173).  The HMAC
primitive (OpenSSL `HMAC(EVP_md5(), digest_key, ...)`) is external code
and is passed in as the function `hmac`; the code copies exactly 16 bytes
of its result.

Faithful details of the C code:
* line 143 puts `ah` at `l2h + sizeof(*l2h)`, i.e. byte 12 — the first
  AVP slot, even though the comment above it says the digest AVP is the
  second AVP (the message-type AVP, 8 bytes long, comes first);
* in line 153, `ntohs(ah->m_h_length) & 0x3FF != 17` applies `!=` before
  `&`, so it computes `ntohs(ah->m_h_length) & (0x3FF != 17)`, which is
  the low bit of the length word (`cne 0x3FF 17 = 1`);
* line 169 `memcpy(ah->value, hmac_res, 16)` overwrites the 16 bytes at
  offsets 18..33 of the message, i.e. the first 16 value bytes of the
  AVP at byte 12. -/
def digest_avp_update (hmac : List Nat → List Nat) (msg : List Nat) :
    Option (List Nat) :=
  let m_h_length := load16be msg 12
  let vendor_id := load16be msg 14
  let attr_type := load16be msg 16
  if attr_type ≠ AVP_IETF_MSG_DIGEST ∨ vendor_id ≠ VENDOR_IETF ∨
      m_h_length &&& cne 0x3ff 17 ≠ 0 then
    none
  else
    let len := load16be msg 2
    if len > msg.length then
      none
    else
      some (msg.take 18 ++ (hmac (msg.take len)).take 16 ++ msg.drop 34)

/-- Peer identity, `struct l2tpd_peer` (l2tpd.h lines 48-54); only the
field used by the transmit path is modelled. -/
structure l2tpd_peer where
  ccid : Nat
deriving DecidableEq, Repr

/-- Connection state, `struct l2tpd_connection` (l2tpd.h lines 58-79);
only the fields used by the transmit path are modelled.  The sequence
numbers are `uint16_t` in the C struct, so they are kept below `2 ^ 16`
by every operation that writes them. -/
structure l2tpd_connection where
  remote : l2tpd_peer
  next_tx_seq_nr : Nat
  next_rx_seq_nr : Nat
deriving DecidableEq, Repr

/-- Translation of `l2tp_msgb_tx` (l2tpd.c lines 175-191).

`msgb_push` prepends the 12-byte control header in place; the code then
assigns `ver`, `ccid`, `Ns` and `Nr` but never assigns `length`, so the
two bytes of the length field keep whatever the msgb headroom held.
Those two uninitialized bytes are the parameters `u1` and `u2`.

Line 182 computes `htons(T_BIT|L_BIT|S_BIT| msgb_l2tplen(msg))`: the
message length (header included) is OR-ed into the version+flags word.
`Ns` is the connection's `next_tx_seq_nr`, which is post-incremented
(16-bit wraparound); `Nr` is `next_rx_seq_nr`, which is not changed.
The digest update is then attempted in place and its failure is ignored
(line 188 discards the return value). -/
def l2tp_msgb_tx (hmac : List Nat → List Nat) (u1 u2 : Nat)
    (l2c : l2tpd_connection) (body : List Nat) :
    List Nat × l2tpd_connection :=
  let l2tplen := 12 + body.length
  let ver := (T_BIT ||| L_BIT ||| S_BIT ||| l2tplen) % 2 ^ 16
  let hdr := be16 ver ++ [u1 % 256, u2 % 256] ++ be32 l2c.remote.ccid
      ++ be16 (l2c.next_tx_seq_nr % 2 ^ 16) ++ be16 (l2c.next_rx_seq_nr % 2 ^ 16)
  let msg1 := hdr ++ body
  let msg2 := match digest_avp_update hmac msg1 with
    | some m => m
    | none => msg1
  (msg2, { l2c with next_tx_seq_nr := (l2c.next_tx_seq_nr + 1) % 2 ^ 16 })

/-- Translation of `tx_ack` (l2tpd.c lines 269-277): a fresh message with
a message-type AVP (ACK) and a zero digest AVP, handed to
`l2tp_msgb_tx`. -/
def tx_ack (hmac : List Nat → List Nat) (u1 u2 : Nat)
    (l2c : l2tpd_connection) : Option (List Nat × l2tpd_connection) :=
  ((msgb_avp_put_msgt [] VENDOR_IETF IETF_CTRLMSG_ACK).bind
      msgb_avp_put_digest).map (l2tp_msgb_tx hmac u1 u2 l2c)

/-- Modelled from the spec: control message types of the missing header
l2tp_protocol.h (IETF values per the L2TPv3 protocol). -/
def IETF_CTRLMSG_SCCRQ : Nat := 1

/-- Modelled from the spec: see `IETF_CTRLMSG_SCCRQ`. -/
def IETF_CTRLMSG_SCCCN : Nat := 3

/-- Modelled from the spec: see `IETF_CTRLMSG_SCCRQ`. -/
def IETF_CTRLMSG_STOPCCN : Nat := 4

/-- Modelled from the spec: see `IETF_CTRLMSG_SCCRQ`. -/
def IETF_CTRLMSG_ICRQ : Nat := 10

/-- Modelled from the spec: see `IETF_CTRLMSG_SCCRQ`. -/
def IETF_CTRLMSG_ICCN : Nat := 12

/-- Modelled from the spec: vendor control message types of the missing
header l2tp_protocol.h (exact values are vendor-private). -/
def ERIC_CTRLMSG_TCRP : Nat := 2

/-- Modelled from the spec: see `ERIC_CTRLMSG_TCRP`. -/
def ERIC_CTRLMSG_ALTCRP : Nat := 4

/-- Outcome of `l2tp_rcvmsg_control` and its two sub-dispatchers.  Error
constructors are named after the log message of the corresponding
`return -1` branch; in the spec's taxonomy `errVersion` is
`UnsupportedVersion`, `errTlsBits` and `errZBits` are `MalformedFlags`,
`errLength` is `Truncated` and `errCcid` is `UnexpectedCcid`.  The
`Stub` constructors mark that a (currently empty) message handler was
reached with the given message type. -/
inductive CtrlOut where
  | errVersion
  | errTlsBits
  | errZBits
  | errLength
  | errCcid
  | errAvp
  | ietfBadLen
  | ietfStub (msg_type : Nat)
  | ietfUnknown (msg_type : Nat)
  | ericBadLen
  | ericStub (msg_type : Nat)
  | ericUnknown (msg_type : Nat)
  | unmatched
deriving DecidableEq, Repr

/-- Translation of `l2tp_rcvmsg_control_ietf` (l2tpd.c lines 310-337);
the five `rx_*` handlers it can reach are empty stubs in the source and
are modelled by `ietfStub`. -/
def l2tp_rcvmsg_control_ietf (first_ap : avp_parsed) : CtrlOut :=
  if first_ap.data_len ≠ 2 then
    .ietfBadLen
  else
    let msg_type := load16be first_ap.data 0
    if msg_type = IETF_CTRLMSG_SCCRQ ∨ msg_type = IETF_CTRLMSG_SCCCN ∨
        msg_type = IETF_CTRLMSG_STOPCCN ∨ msg_type = IETF_CTRLMSG_ICRQ ∨
        msg_type = IETF_CTRLMSG_ICCN then
      .ietfStub msg_type
    else
      .ietfUnknown msg_type

/-- Translation of `l2tp_rcvmsg_control_ericsson` (l2tpd.c lines
348-369); the two `rx_eri_*` handlers are empty stubs, modelled by
`ericStub`. -/
def l2tp_rcvmsg_control_ericsson (first_ap : avp_parsed) : CtrlOut :=
  if first_ap.data_len ≠ 2 then
    .ericBadLen
  else
    let msg_type := load16be first_ap.data 0
    if msg_type = ERIC_CTRLMSG_TCRP ∨ msg_type = ERIC_CTRLMSG_ALTCRP then
      .ericStub msg_type
    else
      .ericUnknown msg_type

/-- Translation of `l2tp_rcvmsg_control` (l2tpd.c lines 371-417).
`l2tp_hdr_swap` byte-swaps the header fields, so the model reads them
big-endian from the buffer.

The flags check of line 384 is the C expression
`ch->ver & T_BIT|L_BIT|S_BIT != T_BIT|L_BIT|S_BIT`.  With C precedence
(`!=` before `&` before `|`) it evaluates as
`(ch->ver & T_BIT) | L_BIT | (S_BIT != T_BIT) | L_BIT | S_BIT`, which
the model transcribes literally via `cne S_BIT T_BIT`.

A message whose first AVP matches neither vendor falls off the end of
the C function; this is modelled by `unmatched`. -/
def l2tp_rcvmsg_control (msg : List Nat) : CtrlOut :=
  let ver := load16be msg 0
  let length := load16be msg 2
  let ccid := load32be msg 4
  if ver &&& VER_MASK ≠ 3 then
    .errVersion
  else if ((ver &&& T_BIT) ||| L_BIT ||| cne S_BIT T_BIT ||| L_BIT ||| S_BIT)
      ≠ 0 then
    .errTlsBits
  else if ver &&& Z_BITS ≠ 0 then
    .errZBits
  else if msg.length < length then
    .errLength
  else if ccid ≠ 0 then
    .errCcid
  else
    match msgb_avp_parse msg 12 with
    | .error _ => .errAvp
    | .ok (ap, _) =>
      if ap.vendor_id = VENDOR_IETF ∧ ap.type = AVP_IETF_CTRL_MSG then
        l2tp_rcvmsg_control_ietf ap
      else if ap.vendor_id = VENDOR_ERICSSON ∧ ap.type = AVP_ERIC_CTRL_MSG then
        l2tp_rcvmsg_control_ericsson ap
      else
        .unmatched

/-- Translation of `msgb_pull` on the model: the pulled bytes are removed
from the front of the buffer. -/
def msgb_pull (msg : List Nat) (n : Nat) : List Nat :=
  msg.drop n

/-- Outcome of the dispatcher `l2tp_rcvmsg`: either the control parser
was invoked (on the buffer with the session id stripped), or the
datagram was handed to the data-plane handler `l2tp_rcvmsg_data`
unmodified, or the unsupported non-IP transport branch was taken. -/
inductive RcvOut where
  | control (r : CtrlOut)
  | data (msg : List Nat)
  | udpUnsupported
deriving DecidableEq, Repr

/-- Translation of `l2tp_rcvmsg` (l2tpd.c lines 425-442): on IP
transport, the leading 32-bit session id selects the plane; a zero id is
pulled off and the rest goes to `l2tp_rcvmsg_control`, a nonzero id
sends the untouched buffer to the data handler. -/
def l2tp_rcvmsg (msg : List Nat) (ip_transport : Bool) : RcvOut :=
  if ip_transport then
    let session := load32be msg 0
    if session = 0 then
      .control (l2tp_rcvmsg_control (msgb_pull msg 4))
    else
      .data msg
  else
    .udpUnsupported

/-- Fixed stand-in for the external OpenSSL HMAC primitive, used to
instantiate the `hmac` parameter in concrete evaluations (a constant
16-byte result). -/
def hmac0 : List Nat → List Nat := fun _ => List.replicate 16 0xAB

/-- Well-formed 20-byte control message: version+flags word
`0xC803 = T_BIT|L_BIT|S_BIT|3` (reserved bits clear), length 20, CCID 0,
Ns = Nr = 0, followed by a single message-type AVP carrying SCCRQ. -/
def goodCtrlMsg : List Nat :=
  [0xC8, 0x03, 0x00, 0x14, 0, 0, 0, 0, 0, 0, 0, 0,
   0x80, 0x08, 0, 0, 0, 0, 0, 1]

/-- Control header of a 43-byte ACK message (12-byte header plus the
31 bytes of message-type and digest AVPs), length field 43, CCID 0. -/
def ctrlHdrAck : List Nat := [0xC8, 3, 0, 43, 0, 0, 0, 0, 0, 0, 0, 0]

/-- The AVP bytes of an ACK control message exactly as the transmit-side
builders produce them: message-type AVP (mandatory, value 20) followed by
the digest AVP (mandatory, 17 zero value bytes, length word
`0x8017`). -/
def ackAvps : List Nat :=
  [0x80, 8, 0, 0, 0, 0, 0, 20, 0x80, 23, 0, 0, 0, 59] ++ List.replicate 17 0

/-- Concrete connection: remote CCID 0x2342, next_tx_seq_nr 5,
next_rx_seq_nr 7. -/
def conn0 : l2tpd_connection := ⟨⟨0x2342⟩, 5, 7⟩

/-- Message that reaches the HMAC step of `digest_avp_update`: the AVP
at byte 12 has attribute type 59 (Message-Digest), vendor 0 and length
word `0x8018` — even, so the precedence-broken length test
`m_h_length & (0x3FF != 17)` passes.  Its value bytes (indices 18..35)
are all zero; the header length field says 36 = the full message. -/
def digestMsgIn : List Nat :=
  [0xC8, 3, 0, 36, 0, 0, 0, 0, 0, 0, 0, 0] ++
    [0x80, 0x18, 0, 0, 0, 59] ++ List.replicate 18 0

/-- Result of `digest_avp_update hmac0 digestMsgIn`: the 16 HMAC bytes
land at indices 18..33 — starting at the FIRST value byte of the AVP —
while indices 34 and 35 keep their old content. -/
def digestMsgOut : List Nat :=
  [0xC8, 3, 0, 36, 0, 0, 0, 0, 0, 0, 0, 0] ++
    [0x80, 0x18, 0, 0, 0, 59] ++ List.replicate 16 0xAB ++ [0, 0]

/-- Helper: `List.getD` commutes with `List.take` below the cut. -/
theorem getD_take_of_lt (l : List Nat) (n i d : Nat) (h : i < n) :
    (l.take n).getD i d = l.getD i d := by
  induction l generalizing n i with
  | nil => simp
  | cons a t ih =>
    cases n with
    | zero => omega
    | succ n =>
      cases i with
      | zero => simp
      | succ i => simpa using ih n i (by omega)

/-- Helper: a successful `digest_avp_update` leaves every byte below
index 18 (header, first AVP header) unchanged: its only write is the
16-byte copy at indices 18..33. -/
theorem digest_avp_update_getD_low (hmac : List Nat → List Nat)
    (msg m : List Nat) (h : digest_avp_update hmac msg = some m) (i : Nat)
    (hi : i < 18) (him : i < msg.length) : m.getD i 0 = msg.getD i 0 := by
  simp only [digest_avp_update] at h
  split at h
  · exact absurd h (by simp)
  · split at h
    · exact absurd h (by simp)
    · have hm : msg.take 18 ++ ((hmac (msg.take (load16be msg 2))).take 16 ++
          msg.drop 34) = m := by
        simpa using h
      rw [← hm,
        List.getD_append _ _ _ _ (by simp [List.length_take]; omega),
        getD_take_of_lt _ _ _ _ hi]

/-- Claim C1: parse_control is claimed to reject with MalformedFlags
exactly when the T/L/S bits are not the required set, so a header with
version 3, T, L and S set and reserved bits clear should pass the flags
check.  The code refutes this: on `goodCtrlMsg`, whose version+flags
word is exactly `T_BIT|L_BIT|S_BIT|3` with all reserved bits zero, the
flags check of line 384 still fires (the C expression
`ch->ver & T_BIT|L_BIT|S_BIT != T_BIT|L_BIT|S_BIT` is
`(ver & 0x8000) | 0x4C01`, which is never zero), so every control
message is rejected there. -/
theorem c1_good_header_rejected_by_flags_check :
    load16be goodCtrlMsg 0 = T_BIT ||| L_BIT ||| S_BIT ||| 3 ∧
    load16be goodCtrlMsg 0 &&& Z_BITS = 0 ∧
    l2tp_rcvmsg_control goodCtrlMsg = .errTlsBits := by decide

/-- Claim C2: digest_avp_update is claimed to succeed on every message
whose second AVP is the zero-filled digest AVP built by
msgb_avp_put_digest.  The code refutes this: on the ACK message built
exactly by `msgb_avp_put_msgt` followed by `msgb_avp_put_digest` the
update fails (it inspects the AVP at byte 12, the message-type AVP),
and it fails even when the digest AVP itself sits at byte 12, because
the precedence-broken length test reads `m_h_length & (0x3FF != 17)`
and the digest AVP's length word `0x8017` is odd. -/
theorem c2_digest_update_rejects_correctly_built_message :
    (msgb_avp_put_msgt ctrlHdrAck VENDOR_IETF IETF_CTRLMSG_ACK).bind
        msgb_avp_put_digest = some (ctrlHdrAck ++ ackAvps) ∧
    digest_avp_update hmac0 (ctrlHdrAck ++ ackAvps) = none ∧
    digest_avp_update hmac0
      ([0xC8, 3, 0, 35, 0, 0, 0, 0, 0, 0, 0, 0] ++
        [0x80, 23, 0, 0, 0, 59] ++ List.replicate 17 0) = none := by decide

/-- Claim C3: the transmit path is claimed to emit a version+flags word
with T, L, S set, version 3 and reserved bits clear, and a length field
equal to the total message length.  The code refutes this on the ACK
transmit (31 AVP bytes, total length 43): line 182 ORs the message
length into the version word, giving `0xC82B` — version nibble 0xB, not
3, and reserved bit 0x20 set — and never assigns the length field, which
keeps the uninitialized headroom bytes (here 0xAA 0xBB). -/
theorem c3_tx_header_version_and_length_wrong :
    (tx_ack hmac0 0xAA 0xBB conn0).map (fun p => load16be p.1 0)
      = some 0xC82B ∧
    0xC82B &&& VER_MASK = 0xB ∧
    0xC82B &&& Z_BITS = 0x20 ∧
    (tx_ack hmac0 0xAA 0xBB conn0).map (fun p => load16be p.1 2)
      = some 0xAABB ∧
    (tx_ack hmac0 0xAA 0xBB conn0).map (fun p => p.1.length) = some 43 := by
  decide

/-- Claim C4: serializing any AVP with value length at most 0x3F9 and
reparsing it at offset 0 is claimed to succeed.  The code refutes this
at the smallest input: the empty-value AVP serializes to the 6 bytes
`00 06 00 00 00 00`, and parsing them at offset 0 fails, because the
bounds check of line 55 computes `sizeof(*ah) + avp_len > msgb_left`
although `avp_len` already includes the 6 header bytes, so any AVP not
followed by 6 spare bytes is rejected. -/
theorem c4_avp_roundtrip_fails_at_offset_zero :
    msgb_avp_put [] 0 0 [] false = some [0, 6, 0, 0, 0, 0] ∧
    msgb_avp_parse [0, 6, 0, 0, 0, 0] 0 = .error .dataBeyondEnd :=
  ⟨by decide, rfl⟩

/-- Claim C5: msgb_avp_parse is claimed to read the 6-byte AVP header at
byte position `offset` and never to access bytes outside the buffer
unless it errors.  The code refutes this: on a 14-byte buffer at offset
2 it parses successfully while dereferencing bytes 12..17 — the header
address is `msg->data + 6 * offset` because the cast in line 43 binds
before `+` — so it starts at byte 12, not 2, and bytes 14..17 lie past
the end of the buffer. -/
theorem c5_avp_parse_reads_beyond_buffer :
    msgb_avp_parse [0, 0, 0, 0, 0, 0, 0, 0, 0, 0, 0, 0, 0, 6] 2 =
      .ok (⟨0, 0, 0, false, false, []⟩, 8) ∧
    msgb_avp_parse_accesses [0, 0, 0, 0, 0, 0, 0, 0, 0, 0, 0, 0, 0, 6] 2 =
      [12, 13, 14, 15, 16, 17] ∧
    List.length [0, 0, 0, 0, 0, 0, 0, 0, 0, 0, 0, 0, 0, 6] = 14 :=
  ⟨rfl, by decide, by decide⟩

/-- Claim C6: when the digest is computed, the 16 HMAC bytes are claimed
to overwrite the trailing 16 bytes of the digest AVP value, leaving the
leading digest-type octet unchanged.  The code refutes this: on
`digestMsgIn` (which reaches the HMAC step) the copy of line 169 targets
`ah->value`, the FIRST value byte — index 18 of the message — so the
leading octet is overwritten (it becomes 0xAB here) while the byte at
index 34 is left untouched. -/
theorem c6_digest_overwrite_hits_leading_value_bytes :
    digest_avp_update hmac0 digestMsgIn = some digestMsgOut ∧
    digestMsgOut.getD 18 0 = 0xAB ∧ digestMsgIn.getD 18 0 = 0 ∧
    digestMsgOut.getD 34 0 = digestMsgIn.getD 34 0 := by decide

/-- Claim C7: for an offset inside the buffer, msgb_avp_parse fails on
the branch the spec calls Truncated (`hdrBeyondEnd`) when fewer than 6
bytes remain after the offset; otherwise fails with InvalidLength
(`lenBelow6`) when the extracted 10-bit length is below 6; otherwise
fails with Truncated (`dataBeyondEnd`) when 6 plus the extracted length
exceeds the remaining bytes; and otherwise succeeds returning the offset
plus the extracted length. -/
theorem c7_avp_parse_error_taxonomy (msg : List Nat) (offset : Nat)
    (hoff : offset ≤ msg.length) (hlen : msg.length < 2 ^ 32) :
    (msg.length - offset < 6 →
        msgb_avp_parse msg offset = .error .hdrBeyondEnd) ∧
    (6 ≤ msg.length - offset → load16be msg (6 * offset) &&& 0x3ff < 6 →
        msgb_avp_parse msg offset = .error .lenBelow6) ∧
    (6 ≤ msg.length - offset → 6 ≤ load16be msg (6 * offset) &&& 0x3ff →
        msg.length - offset < 6 + (load16be msg (6 * offset) &&& 0x3ff) →
        msgb_avp_parse msg offset = .error .dataBeyondEnd) ∧
    (6 ≤ msg.length - offset → 6 ≤ load16be msg (6 * offset) &&& 0x3ff →
        6 + (load16be msg (6 * offset) &&& 0x3ff) ≤ msg.length - offset →
        ∃ ap, msgb_avp_parse msg offset
          = .ok (ap, offset + (load16be msg (6 * offset) &&& 0x3ff))) := by
  have hml : (2 ^ 32 + msg.length - offset % 2 ^ 32) % 2 ^ 32
      = msg.length - offset := by omega
  refine ⟨fun h1 => ?_, fun h1 h2 => ?_, fun h1 h2 h3 => ?_,
    fun h1 h2 h3 => ?_⟩ <;> simp only [msgb_avp_parse, hml]
  · rw [if_pos (by omega)]
  · rw [if_neg (by omega), if_pos h2]
  · rw [if_neg (by omega), if_neg (by omega), if_pos (by omega)]
  · rw [if_neg (by omega), if_neg (by omega), if_neg (by omega)]
    exact ⟨_, rfl⟩

/-- Witness for C7: the empty buffer at offset 0 has fewer than 6 bytes
remaining and indeed fails on the first Truncated branch. -/
theorem c7_witness : msgb_avp_parse [] 0 = .error .hdrBeyondEnd :=
  (c7_avp_parse_error_taxonomy [] 0 (by decide) (by decide)).1 (by decide)

/-- Claim C8: the transmit path writes the connection's current
next_tx_seq_nr into the Ns field (bytes 8..9 of the prepended header),
the current next_rx_seq_nr into the Nr field (bytes 10..11), increments
next_tx_seq_nr by one modulo 2^16 and leaves next_rx_seq_nr
unchanged. -/
theorem c8_tx_sequence_numbers (hmac : List Nat → List Nat) (u1 u2 : Nat)
    (l2c : l2tpd_connection) (body : List Nat)
    (htx : l2c.next_tx_seq_nr < 2 ^ 16) (hrx : l2c.next_rx_seq_nr < 2 ^ 16) :
    load16be (l2tp_msgb_tx hmac u1 u2 l2c body).1 8 = l2c.next_tx_seq_nr ∧
    load16be (l2tp_msgb_tx hmac u1 u2 l2c body).1 10 = l2c.next_rx_seq_nr ∧
    (l2tp_msgb_tx hmac u1 u2 l2c body).2.next_tx_seq_nr
      = (l2c.next_tx_seq_nr + 1) % 2 ^ 16 ∧
    (l2tp_msgb_tx hmac u1 u2 l2c body).2.next_rx_seq_nr
      = l2c.next_rx_seq_nr := by
  have hlow : ∀ i, i < 12 → (l2tp_msgb_tx hmac u1 u2 l2c body).1.getD i 0 =
      ((be16 ((T_BIT ||| L_BIT ||| S_BIT ||| (12 + body.length)) % 2 ^ 16) ++
        [u1 % 256, u2 % 256] ++ be32 l2c.remote.ccid ++
        be16 (l2c.next_tx_seq_nr % 2 ^ 16) ++
        be16 (l2c.next_rx_seq_nr % 2 ^ 16)) ++ body).getD i 0 := by
    intro i hi
    simp only [l2tp_msgb_tx]
    split
    · rename_i m hm
      exact digest_avp_update_getD_low _ _ _ hm i (by omega)
        (by simp [be16, be32]; omega)
    · rfl
  have e8 : ((be16 ((T_BIT ||| L_BIT ||| S_BIT |||
      (12 + body.length)) % 2 ^ 16) ++
      [u1 % 256, u2 % 256] ++ be32 l2c.remote.ccid ++
      be16 (l2c.next_tx_seq_nr % 2 ^ 16) ++
      be16 (l2c.next_rx_seq_nr % 2 ^ 16)) ++ body).getD 8 0
      = (l2c.next_tx_seq_nr % 2 ^ 16) / 256 % 256 := rfl
  have e9 : ((be16 ((T_BIT ||| L_BIT ||| S_BIT |||
      (12 + body.length)) % 2 ^ 16) ++
      [u1 % 256, u2 % 256] ++ be32 l2c.remote.ccid ++
      be16 (l2c.next_tx_seq_nr % 2 ^ 16) ++
      be16 (l2c.next_rx_seq_nr % 2 ^ 16)) ++ body).getD 9 0
      = (l2c.next_tx_seq_nr % 2 ^ 16) % 256 := rfl
  have e10 : ((be16 ((T_BIT ||| L_BIT ||| S_BIT |||
      (12 + body.length)) % 2 ^ 16) ++
      [u1 % 256, u2 % 256] ++ be32 l2c.remote.ccid ++
      be16 (l2c.next_tx_seq_nr % 2 ^ 16) ++
      be16 (l2c.next_rx_seq_nr % 2 ^ 16)) ++ body).getD 10 0
      = (l2c.next_rx_seq_nr % 2 ^ 16) / 256 % 256 := rfl
  have e11 : ((be16 ((T_BIT ||| L_BIT ||| S_BIT |||
      (12 + body.length)) % 2 ^ 16) ++
      [u1 % 256, u2 % 256] ++ be32 l2c.remote.ccid ++
      be16 (l2c.next_tx_seq_nr % 2 ^ 16) ++
      be16 (l2c.next_rx_seq_nr % 2 ^ 16)) ++ body).getD 11 0
      = (l2c.next_rx_seq_nr % 2 ^ 16) % 256 := rfl
  refine ⟨?_, ?_, rfl, rfl⟩
  · unfold load16be
    rw [hlow 8 (by omega), hlow 9 (by omega), e8, e9, Nat.mod_eq_of_lt htx]
    omega
  · unfold load16be
    rw [hlow 10 (by omega), hlow 11 (by omega), e10, e11,
      Nat.mod_eq_of_lt hrx]
    omega

/-- Witness for C8: a connection with next_tx_seq_nr 5 and
next_rx_seq_nr 7 transmits Ns 5, Nr 7 and advances next_tx_seq_nr
to 6. -/
theorem c8_witness :
    load16be (l2tp_msgb_tx hmac0 0 0 ⟨⟨2⟩, 5, 7⟩ []).1 8 = 5 ∧
    load16be (l2tp_msgb_tx hmac0 0 0 ⟨⟨2⟩, 5, 7⟩ []).1 10 = 7 ∧
    (l2tp_msgb_tx hmac0 0 0 ⟨⟨2⟩, 5, 7⟩ []).2.next_tx_seq_nr
      = (5 + 1) % 2 ^ 16 ∧
    (l2tp_msgb_tx hmac0 0 0 ⟨⟨2⟩, 5, 7⟩ []).2.next_rx_seq_nr = 7 :=
  c8_tx_sequence_numbers hmac0 0 0 ⟨⟨2⟩, 5, 7⟩ [] (by decide) (by decide)

/-- Claim C9: the dispatcher routes every IP-transport datagram by its
leading 32-bit session id: zero means the four id bytes are stripped and
the remainder goes to the control-message parser; nonzero means the
datagram goes to the data-plane handler unmodified. -/
theorem c9_dispatch_by_session_id (msg : List Nat) :
    (load32be msg 0 = 0 →
      l2tp_rcvmsg msg true = .control (l2tp_rcvmsg_control (msg.drop 4))) ∧
    (load32be msg 0 ≠ 0 → l2tp_rcvmsg msg true = .data msg) := by
  constructor <;> intro h <;> simp [l2tp_rcvmsg, msgb_pull, h]

/-- Witness for C9: a datagram with session id 0 reaches the control
parser without its first four bytes; one with session id 1 is handed to
the data plane untouched. -/
theorem c9_witness :
    l2tp_rcvmsg [0, 0, 0, 0, 0xC8] true
      = .control (l2tp_rcvmsg_control ([0, 0, 0, 0, 0xC8].drop 4)) ∧
    l2tp_rcvmsg [0, 0, 0, 1, 0xC8] true = .data [0, 0, 0, 1, 0xC8] :=
  ⟨(c9_dispatch_by_session_id [0, 0, 0, 0, 0xC8]).1 (by decide),
   (c9_dispatch_by_session_id [0, 0, 0, 1, 0xC8]).2 (by decide)⟩

/-- Claim C10: whenever msgb_avp_parse succeeds, the returned next
offset is at least the input offset plus 6 and at most the message
length, so repeated AVP parsing makes strict progress and
terminates. -/
theorem c10_avp_parse_progress (msg : List Nat) (offset : Nat)
    (ap : avp_parsed) (noff : Nat) (hlen : msg.length < 2 ^ 32)
    (h : msgb_avp_parse msg offset = .ok (ap, noff)) :
    offset + 6 ≤ noff ∧ noff ≤ msg.length := by
  simp only [msgb_avp_parse] at h
  by_cases h1 : 6 > (2 ^ 32 + msg.length - offset % 2 ^ 32) % 2 ^ 32
  · rw [if_pos h1] at h; exact absurd h (by simp)
  rw [if_neg h1] at h
  by_cases h2 : load16be msg (6 * offset) &&& 0x3ff < 6
  · rw [if_pos h2] at h; exact absurd h (by simp)
  rw [if_neg h2] at h
  by_cases h3 : 6 + (load16be msg (6 * offset) &&& 0x3ff) >
      (2 ^ 32 + msg.length - offset % 2 ^ 32) % 2 ^ 32
  · rw [if_pos h3] at h; exact absurd h (by simp)
  rw [if_neg h3] at h
  simp only [Except.ok.injEq, Prod.mk.injEq] at h
  have hn : noff = offset + (load16be msg (6 * offset) &&& 0x3ff) := h.2.symm
  have hle : load16be msg (6 * offset) &&& 0x3ff ≤ load16be msg (6 * offset) :=
    Nat.and_le_left
  have hidx : 6 * offset < msg.length := by
    by_contra hge
    push_neg at hge
    have e1 : msg.getD (6 * offset) 0 = 0 := List.getD_eq_default _ _ hge
    have e2 : msg.getD (6 * offset + 1) 0 = 0 :=
      List.getD_eq_default _ _ (by omega)
    have hz : load16be msg (6 * offset) = 0 := by
      unfold load16be; rw [e1, e2]
    omega
  omega

/-- Witness for C10: parsing the 12-byte buffer holding one empty AVP
and 6 spare bytes succeeds with next offset 6, which lies between
0 + 6 and the buffer length. -/
theorem c10_witness :
    0 + 6 ≤ 6 ∧ 6 ≤ List.length [0, 6, 0, 0, 0, 0, 0, 0, 0, 0, 0, 0] :=
  c10_avp_parse_progress [0, 6, 0, 0, 0, 0, 0, 0, 0, 0, 0, 0] 0
    ⟨0, 0, 0, false, false, []⟩ 6 (by decide) rfl
